import Mathlib

/-!
Shallow embedding of `src/tools/framework_assessment.py`
(game-server-framework assessment tool).

The tool probes an expected module layout on a filesystem, runs one external
build, estimates test coverage, registers benchmark metrics and integration
scenarios, computes a weighted overall score with recommendations, and
serializes the result to a structured report.

Modelling choices:
- The filesystem is abstract: boolean query functions for path existence /
  directory-ness (relative to the framework root, paths as component lists)
  plus the list of directory paths visited by `os.walk`.
- Python `float` is modelled as `ℚ`; all constants in the program
  (0.3, 0.2, 0.15, 60.0, thresholds) are exactly representable.
- Python `dict` (insertion-ordered, with distinct keys here) is modelled as an
  association list.
- The single external build invocation is abstracted as a `BuildOutcome`
  (success / failure / timeout-or-error), exactly the three branches of
  `_check_compilation`.
-/

/-- `ModuleStatus` dataclass: the assessed state of one module. -/
structure ModuleStatus where
  name : String
  path : String
  «exists» : Bool := false
  has_pom : Bool := false
  compilable : Bool := false
  has_tests : Bool := false
  test_coverage : ℚ := 0
  issues : List String := []
deriving DecidableEq, Repr

/-- `PerformanceMetrics` dataclass: one benchmark entry. -/
structure PerformanceMetrics where
  test_name : String
  target_value : ℚ
  actual_value : ℚ
  unit : String
  passed : Bool
  details : String := ""
deriving DecidableEq, Repr

/-- `AssessmentResult` dataclass: the root aggregate of one pipeline run. -/
structure AssessmentResult where
  framework_modules : List (String × ModuleStatus)
  business_modules : List (String × ModuleStatus)
  support_modules : List (String × ModuleStatus)
  performance_metrics : List PerformanceMetrics
  integration_tests : List (String × Bool)
  overall_score : ℚ
  recommendations : List String
  timestamp : String
deriving DecidableEq, Repr

/-- Abstract filesystem: existence and directory queries on paths given as
component lists relative to the framework root, plus the directory paths
(as strings) produced by walking the tree (`os.walk`). -/
structure FileSystem where
  path_exists : List String → Bool
  is_dir : List String → Bool
  walk_roots : List String

/-- ASCII lowering of one character (model of `str.lower` on the alphabet
relevant to the walk heuristics). -/
def char_lower (c : Char) : Char :=
  if 'A' ≤ c && c ≤ 'Z' then Char.ofNat (c.toNat + 32) else c

/-- Does `pat` occur at the front of `s`? -/
def chars_lead : List Char → List Char → Bool
  | [], _ => true
  | _ :: _, [] => false
  | p :: ps, c :: cs => p == c && chars_lead ps cs

/-- Does `pat` occur as a contiguous substring of `s`? (Python `in`.) -/
def chars_contain (pat : List Char) : List Char → Bool
  | [] => chars_lead pat []
  | c :: cs => chars_lead pat (c :: cs) || chars_contain pat cs

/-- `pat in s.lower()` for a lowercase ASCII pattern `pat`. -/
def lower_contains (s pat : String) : Bool :=
  chars_contain pat.toList (s.toList.map char_lower)

/-- Render a component path the way `str(Path)` would (root elided). -/
def path_string (p : List String) : String := String.intercalate "/" p

/-- Expected framework-layer module names (`expected_framework_modules`). -/
def expected_framework_modules : List String :=
  ["common", "network", "rpc", "cache", "database",
   "actor", "ecs", "event", "config", "security",
   "monitor", "concurrent"]

/-- Expected business-layer module names (`expected_business_modules`). -/
def expected_business_modules : List String :=
  ["gateway", "login", "payment", "chat",
   "activity", "ranking", "logic", "scene"]

/-- Expected support module names (`expected_support_modules`). -/
def expected_support_modules : List String :=
  ["test-framework", "admin-console", "launcher"]

/-- `_analyze_module`: probe one module directory. -/
def analyze_module (fs : FileSystem) (name : String) (path : List String) :
    ModuleStatus :=
  let ex := fs.path_exists path && fs.is_dir path
  if !ex then
    { name := name, path := path_string path, «exists» := false,
      issues := ["模块目录不存在"] }
  else
    let has_pom := fs.path_exists (path ++ ["pom.xml"])
    let issues1 : List String := if has_pom then [] else ["缺少pom.xml文件"]
    let src_main := fs.path_exists (path ++ ["src", "main", "java"])
    let issues2 := issues1 ++ (if src_main then [] else ["缺少标准Maven源码结构"])
    let has_tests := fs.path_exists (path ++ ["src", "test", "java"])
    let issues3 := issues2 ++ (if has_tests then [] else ["缺少测试代码"])
    { name := name, path := path_string path, «exists» := true,
      has_pom := has_pom, has_tests := has_tests, issues := issues3 }

/-- Path resolution of `_check_modules`: framework modules live under
`frame/frame-<name>`, business modules under `business/<name>`. -/
def framework_module_path (name : String) : List String :=
  ["frame", "frame-" ++ name]

/-- Business module location, `business/<name>`. -/
def business_module_path (name : String) : List String :=
  ["business", name]

/-- `_check_modules` for the framework group. -/
def check_framework_modules (fs : FileSystem) : List (String × ModuleStatus) :=
  expected_framework_modules.map
    (fun n => (n, analyze_module fs n (framework_module_path n)))

/-- `_check_modules` for the business group. -/
def check_business_modules (fs : FileSystem) : List (String × ModuleStatus) :=
  expected_business_modules.map
    (fun n => (n, analyze_module fs n (business_module_path n)))

/-- The `os.walk` heuristic for a test framework:
some walked root contains "test-framework" or "testing" (lowercased). -/
def test_framework_found (fs : FileSystem) : Bool :=
  fs.walk_roots.any
    (fun r => lower_contains r "test-framework" || lower_contains r "testing")

/-- The `os.walk` heuristic for an admin console:
some walked root contains both "admin" and "console" (lowercased). -/
def admin_console_found (fs : FileSystem) : Bool :=
  fs.walk_roots.any
    (fun r => lower_contains r "admin" && lower_contains r "console")

/-- The synthetic `test-framework` status built in `_check_support_modules`. -/
def tf_status (fs : FileSystem) : ModuleStatus :=
  { name := "test-framework", path := "distributed",
    «exists» := test_framework_found fs,
    issues := if test_framework_found fs then [] else ["测试框架模块缺失"] }

/-- The synthetic `admin-console` status built in `_check_support_modules`. -/
def ac_status (fs : FileSystem) : ModuleStatus :=
  { name := "admin-console", path := "not_found",
    «exists» := admin_console_found fs,
    issues := if admin_console_found fs then [] else ["后台管理控制台缺失"] }

/-- `_check_support_modules`: launcher and common are probed like ordinary
modules; test-framework and admin-console get synthetic statuses from the
walk heuristics. -/
def check_support_modules (fs : FileSystem) : List (String × ModuleStatus) :=
  [("launcher", analyze_module fs "launcher" ["launcher"]),
   ("common", analyze_module fs "common" ["common"]),
   ("test-framework", tf_status fs),
   ("admin-console", ac_status fs)]

/-- The fresh `AssessmentResult` built in `__init__`. -/
def initial_result (ts : String) : AssessmentResult :=
  { framework_modules := [], business_modules := [], support_modules := [],
    performance_metrics := [], integration_tests := [],
    overall_score := 0, recommendations := [], timestamp := ts }

/-- `_check_module_completeness`: fill the three module groups. -/
def check_module_completeness (fs : FileSystem) (r : AssessmentResult) :
    AssessmentResult :=
  { r with
    framework_modules := check_framework_modules fs,
    business_modules := check_business_modules fs,
    support_modules := check_support_modules fs }

/-- Outcome of the single external `mvn clean compile` invocation:
zero exit code, non-zero exit code, or `TimeoutExpired` / unexpected error. -/
inductive BuildOutcome where
  | success
  | failure
  | timeout_or_error
deriving DecidableEq, Repr

/-- Per-status update done by the loop in `_check_compilation` when the build
ran to completion with result `compilation_success`. -/
def compile_update (compilation_success : Bool) (s : ModuleStatus) :
    ModuleStatus :=
  if s.«exists» && s.has_pom then
    if compilation_success then { s with compilable := true }
    else { s with compilable := false, issues := s.issues ++ ["编译失败"] }
  else s

/-- Apply a status transformation to every module of all three groups. -/
def map_modules (f : ModuleStatus → ModuleStatus) (r : AssessmentResult) :
    AssessmentResult :=
  { r with
    framework_modules := r.framework_modules.map (fun p => (p.1, f p.2)),
    business_modules := r.business_modules.map (fun p => (p.1, f p.2)),
    support_modules := r.support_modules.map (fun p => (p.1, f p.2)) }

/-- `_check_compilation`: on timeout or unexpected error the exception is
raised before the update loop, so the result is untouched. -/
def check_compilation (outcome : BuildOutcome) (r : AssessmentResult) :
    AssessmentResult :=
  match outcome with
  | .success => map_modules (compile_update true) r
  | .failure => map_modules (compile_update false) r
  | .timeout_or_error => r

/-- Per-status update of `_check_test_coverage`. -/
def coverage_update (s : ModuleStatus) : ModuleStatus :=
  { s with test_coverage := if s.has_tests then 60 else 0 }

/-- `_check_test_coverage`: binary coverage estimate for every module. -/
def check_test_coverage (r : AssessmentResult) : AssessmentResult :=
  map_modules coverage_update r

/-- The five fixed benchmark entries appended by `_run_performance_tests`. -/
def performance_test_metrics : List PerformanceMetrics :=
  [{ test_name := "Actor消息处理吞吐量", target_value := 1000000,
     actual_value := 0, unit := "msg/s", passed := false,
     details := "需要实现Actor系统性能测试" },
   { test_name := "Actor并发数量", target_value := 100000,
     actual_value := 0, unit := "actors", passed := false,
     details := "需要实现Actor并发测试" },
   { test_name := "网络延迟99分位", target_value := 10,
     actual_value := 0, unit := "ms", passed := false,
     details := "需要实现网络性能测试" },
   { test_name := "RPC调用延迟", target_value := 1,
     actual_value := 0, unit := "ms", passed := false,
     details := "需要实现RPC性能测试" },
   { test_name := "数据库操作TPS", target_value := 100000,
     actual_value := 0, unit := "ops/s", passed := false,
     details := "需要实现数据库性能测试" }]

/-- `_run_performance_tests`: append the five fixed metrics. -/
def run_performance_tests (r : AssessmentResult) : AssessmentResult :=
  { r with performance_metrics := r.performance_metrics ++ performance_test_metrics }

/-- The nine integration-test scenario names of `_run_integration_tests`. -/
def integration_scenarios : List String :=
  ["玩家登录流程测试", "聊天系统流程测试", "支付流程测试",
   "登录风暴测试", "场景压力测试", "活动高峰测试",
   "服务故障测试", "网络分区测试", "数据一致性测试"]

/-- `_run_integration_tests`: mark every scenario as not passed. -/
def run_integration_tests (r : AssessmentResult) : AssessmentResult :=
  { r with integration_tests :=
      r.integration_tests ++ integration_scenarios.map (fun s => (s, false)) }

/-- All module statuses across the three groups, in traversal order. -/
def all_statuses (r : AssessmentResult) : List ModuleStatus :=
  (r.framework_modules ++ r.business_modules ++ r.support_modules).map Prod.snd

/-- `_calculate_module_score`. -/
def calculate_module_score (r : AssessmentResult) : ℚ :=
  let total := (all_statuses r).length
  let working := ((all_statuses r).filter (fun s => s.«exists» && s.has_pom)).length
  if 0 < total then (working : ℚ) / (total : ℚ) * 100 else 0

/-- `_calculate_build_score`. -/
def calculate_build_score (r : AssessmentResult) : ℚ :=
  let eligible := (all_statuses r).filter (fun s => s.«exists» && s.has_pom)
  let compilable := (eligible.filter (fun s => s.compilable)).length
  if 0 < eligible.length then
    (compilable : ℚ) / (eligible.length : ℚ) * 100
  else 0

/-- `_calculate_test_score`. -/
def calculate_test_score (r : AssessmentResult) : ℚ :=
  let existing := (all_statuses r).filter (fun s => s.«exists»)
  let total_coverage := (existing.map (fun s => s.test_coverage)).sum
  if 0 < existing.length then total_coverage / (existing.length : ℚ) else 0

/-- `_calculate_performance_score`. -/
def calculate_performance_score (r : AssessmentResult) : ℚ :=
  if r.performance_metrics.isEmpty then 0
  else
    ((r.performance_metrics.filter (fun m => m.passed)).length : ℚ) /
      (r.performance_metrics.length : ℚ) * 100

/-- `_calculate_integration_score`. -/
def calculate_integration_score (r : AssessmentResult) : ℚ :=
  if r.integration_tests.isEmpty then 0
  else
    ((r.integration_tests.filter (fun p => p.2)).length : ℚ) /
      (r.integration_tests.length : ℚ) * 100

/-- The recommendation strings, in emission order. -/
def module_recommendation : String := "需要完善框架模块结构，特别是ECS和Security模块"

/-- Recommendation for build score below 90. -/
def build_recommendation : String := "需要修复编译问题，确保所有模块能正常构建"

/-- Recommendation for test score below 70. -/
def test_recommendation : String := "需要增加测试覆盖率，目标达到80%以上"

/-- Recommendation for performance score below 60. -/
def perf_recommendation : String := "需要实现性能基准测试，验证系统性能指标"

/-- Recommendation for integration score below 50. -/
def integration_recommendation : String := "需要实现端到端集成测试，验证业务流程"

/-- `_calculate_score_and_recommendations`: weighted sum and the
threshold-gated recommendation list. -/
def calculate_score_and_recommendations (r : AssessmentResult) :
    AssessmentResult :=
  let module_score := calculate_module_score r
  let build_score := calculate_build_score r
  let test_score := calculate_test_score r
  let perf_score := calculate_performance_score r
  let integration_score := calculate_integration_score r
  let overall := module_score * (3 / 10) + build_score * (2 / 10) +
    test_score * (2 / 10) + perf_score * (15 / 100) +
    integration_score * (15 / 100)
  let recommendations :=
    (if module_score < 80 then [module_recommendation] else []) ++
    (if build_score < 90 then [build_recommendation] else []) ++
    (if test_score < 70 then [test_recommendation] else []) ++
    (if perf_score < 60 then [perf_recommendation] else []) ++
    (if integration_score < 50 then [integration_recommendation] else [])
  { r with overall_score := overall, recommendations := recommendations }

/-- `run_assessment`: the six pipeline phases in order (no phase raises in
this model, so the top-level exception handler is not exercised). -/
def run_assessment (fs : FileSystem) (outcome : BuildOutcome) (ts : String) :
    AssessmentResult :=
  calculate_score_and_recommendations
    (run_integration_tests
      (run_performance_tests
        (check_test_coverage
          (check_compilation outcome
            (check_module_completeness fs (initial_result ts))))))

/-!
Structured (JSON) report form of `generate_report`.

`report_data` mirrors the dictionary literal built in `generate_report`:
a summary object (timestamp, overall score, recommendations), the three
module dictionaries via `asdict`, the benchmark list via `asdict`, and the
scenario map. `report_result` is the inverse reading, witnessing that the
transform is lossless.
-/

/-- JSON-like values produced by `generate_report` (numbers as ℚ, matching
the float model). -/
inductive JValue where
  | jstr : String → JValue
  | jnum : ℚ → JValue
  | jbool : Bool → JValue
  | jarr : List JValue → JValue
  | jobj : List (String × JValue) → JValue

/-- `asdict` of a `ModuleStatus`, field order as declared. -/
def module_status_json (s : ModuleStatus) : JValue :=
  .jobj [("name", .jstr s.name), ("path", .jstr s.path),
         ("exists", .jbool s.«exists»), ("has_pom", .jbool s.has_pom),
         ("compilable", .jbool s.compilable), ("has_tests", .jbool s.has_tests),
         ("test_coverage", .jnum s.test_coverage),
         ("issues", .jarr (s.issues.map .jstr))]

/-- `asdict` of a `PerformanceMetrics`, field order as declared. -/
def metric_json (m : PerformanceMetrics) : JValue :=
  .jobj [("test_name", .jstr m.test_name), ("target_value", .jnum m.target_value),
         ("actual_value", .jnum m.actual_value), ("unit", .jstr m.unit),
         ("passed", .jbool m.passed), ("details", .jstr m.details)]

/-- One module dictionary serialized as a JSON object. -/
def modules_json (l : List (String × ModuleStatus)) : JValue :=
  .jobj (l.map (fun p => (p.1, module_status_json p.2)))

/-- The full `report_data` dictionary of `generate_report`. -/
def report_data (r : AssessmentResult) : JValue :=
  .jobj
    [("assessment_summary", .jobj
        [("timestamp", .jstr r.timestamp),
         ("overall_score", .jnum r.overall_score),
         ("recommendations", .jarr (r.recommendations.map .jstr))]),
     ("module_analysis", .jobj
        [("framework_modules", modules_json r.framework_modules),
         ("business_modules", modules_json r.business_modules),
         ("support_modules", modules_json r.support_modules)]),
     ("performance_metrics", .jarr (r.performance_metrics.map metric_json)),
     ("integration_tests", .jobj
        (r.integration_tests.map (fun p => (p.1, .jbool p.2))))]

/-- Read back a list of strings from a JSON array. -/
def read_strings : List JValue → Option (List String)
  | [] => some []
  | .jstr s :: rest => (read_strings rest).map (s :: ·)
  | _ => none

/-- Read back a `ModuleStatus` from its `asdict` object. -/
def read_module_status : JValue → Option ModuleStatus
  | .jobj [("name", .jstr n), ("path", .jstr p),
           ("exists", .jbool e), ("has_pom", .jbool hp),
           ("compilable", .jbool c), ("has_tests", .jbool ht),
           ("test_coverage", .jnum tc), ("issues", .jarr is)] =>
    (read_strings is).map
      (fun iss => ⟨n, p, e, hp, c, ht, tc, iss⟩)
  | _ => none

/-- Read back a module dictionary. -/
def read_modules_list :
    List (String × JValue) → Option (List (String × ModuleStatus))
  | [] => some []
  | (k, v) :: rest => do
    let s ← read_module_status v
    let r ← read_modules_list rest
    pure ((k, s) :: r)

/-- Read back a `PerformanceMetrics`. -/
def read_metric : JValue → Option PerformanceMetrics
  | .jobj [("test_name", .jstr tn), ("target_value", .jnum tv),
           ("actual_value", .jnum av), ("unit", .jstr u),
           ("passed", .jbool pa), ("details", .jstr d)] =>
    some ⟨tn, tv, av, u, pa, d⟩
  | _ => none

/-- Read back the benchmark list. -/
def read_metrics : List JValue → Option (List PerformanceMetrics)
  | [] => some []
  | v :: rest => do
    let m ← read_metric v
    let r ← read_metrics rest
    pure (m :: r)

/-- Read back the scenario map. -/
def read_scenarios : List (String × JValue) → Option (List (String × Bool))
  | [] => some []
  | (k, .jbool b) :: rest => (read_scenarios rest).map ((k, b) :: ·)
  | _ => none

/-- Read back the summary object (timestamp, overall score,
recommendations). -/
def read_summary : JValue → Option (String × ℚ × List String)
  | .jobj [("timestamp", .jstr ts), ("overall_score", .jnum score),
           ("recommendations", .jarr recs)] =>
    (read_strings recs).map (fun l => (ts, score, l))
  | _ => none

/-- Read back the three module dictionaries. -/
def read_analysis : JValue →
    Option (List (String × ModuleStatus) × List (String × ModuleStatus) ×
            List (String × ModuleStatus))
  | .jobj [("framework_modules", .jobj fw), ("business_modules", .jobj biz),
           ("support_modules", .jobj sup)] => do
    let f ← read_modules_list fw
    let b ← read_modules_list biz
    let s ← read_modules_list sup
    pure (f, b, s)
  | _ => none

/-- Read a full `AssessmentResult` back from the structured report form. -/
def read_result : JValue → Option AssessmentResult
  | .jobj [("assessment_summary", sm), ("module_analysis", ma),
           ("performance_metrics", .jarr pm),
           ("integration_tests", .jobj its)] => do
    let (ts, score, recommendations) ← read_summary sm
    let (framework_modules, business_modules, support_modules) ←
      read_analysis ma
    let performance_metrics ← read_metrics pm
    let integration_tests ← read_scenarios its
    pure ⟨framework_modules, business_modules, support_modules,
          performance_metrics, integration_tests, score, recommendations, ts⟩
  | _ => none

/-!
Concrete fixtures used by witnesses and counterexamples.
-/

/-- A filesystem on which nothing exists and the walk visits nothing. -/
def fs_empty : FileSystem := ⟨fun _ => false, fun _ => false, []⟩

/-- A filesystem on which every queried path exists and is a directory, and
the walk finds both heuristic keywords. -/
def fs_full : FileSystem :=
  ⟨fun _ => true, fun _ => true, ["x/testing", "x/admin-console"]⟩

/-- A filesystem on which nothing exists but the walk visits a directory
whose path contains "testing". -/
def fs_testing_only : FileSystem :=
  ⟨fun _ => false, fun _ => false, ["/repo/testing"]⟩

/-- Fixture status for score computations. -/
def mk_status (ex pom comp tests : Bool) (cov : ℚ) : ModuleStatus :=
  { name := "m", path := "p", «exists» := ex, has_pom := pom,
    compilable := comp, has_tests := tests, test_coverage := cov }

/-- Fixture benchmark entry with a given pass flag. -/
def mk_metric (b : Bool) : PerformanceMetrics :=
  { test_name := "t", target_value := 1, actual_value := 1, unit := "u",
    passed := b }

/-- A result whose five category scores are all 50. -/
def result_fifty : AssessmentResult :=
  { framework_modules :=
      [("m1", mk_status true true true false 50),
       ("m2", mk_status true true false false 50),
       ("m3", mk_status true false false false 50),
       ("m4", mk_status false false false false 0)],
    business_modules := [], support_modules := [],
    performance_metrics := [mk_metric true, mk_metric false],
    integration_tests := [("a", true), ("b", false)],
    overall_score := 0, recommendations := [], timestamp := "t" }

/-- A result whose five category scores are (100, 0, 0, 0, 0). -/
def result_thirty : AssessmentResult :=
  { framework_modules := [("m1", mk_status true true false false 0)],
    business_modules := [], support_modules := [],
    performance_metrics := [], integration_tests := [],
    overall_score := 0, recommendations := [], timestamp := "t" }

/-- The five category scores of a result, in weight order. -/
def category_scores (r : AssessmentResult) : ℚ × ℚ × ℚ × ℚ × ℚ :=
  (calculate_module_score r, calculate_build_score r, calculate_test_score r,
   calculate_performance_score r, calculate_integration_score r)

unseal Rat.add Rat.mul Rat.inv in
/-- C1: the overall score is the fixed weighted sum
0.30·module + 0.20·build + 0.20·test + 0.15·benchmark + 0.15·scenario of the
five category scores; in particular category scores (50,50,50,50,50) give
overall 50 and (100,0,0,0,0) give overall 30. -/
theorem c1_overall_weighted_sum :
    (∀ r : AssessmentResult,
      (calculate_score_and_recommendations r).overall_score =
        calculate_module_score r * (3 / 10) +
        calculate_build_score r * (2 / 10) +
        calculate_test_score r * (2 / 10) +
        calculate_performance_score r * (15 / 100) +
        calculate_integration_score r * (15 / 100)) ∧
    category_scores result_fifty = (50, 50, 50, 50, 50) ∧
    (calculate_score_and_recommendations result_fifty).overall_score = 50 ∧
    category_scores result_thirty = (100, 0, 0, 0, 0) ∧
    (calculate_score_and_recommendations result_thirty).overall_score = 30 :=
  ⟨fun _ => rfl, by decide, by decide, by decide, by decide⟩

/-- C7: the recommendation list is exactly the concatenation, in fixed order,
of the five independently threshold-gated singleton lists (module < 80,
build < 90, test < 70, benchmark < 60, scenario < 50); consequently equal
category scores always produce the identical list. -/
theorem c7_recommendations_deterministic :
    (∀ r : AssessmentResult,
      (calculate_score_and_recommendations r).recommendations =
        (if calculate_module_score r < 80 then [module_recommendation] else []) ++
        (if calculate_build_score r < 90 then [build_recommendation] else []) ++
        (if calculate_test_score r < 70 then [test_recommendation] else []) ++
        (if calculate_performance_score r < 60 then [perf_recommendation] else []) ++
        (if calculate_integration_score r < 50 then [integration_recommendation] else [])) ∧
    (∀ r₁ r₂ : AssessmentResult, category_scores r₁ = category_scores r₂ →
      (calculate_score_and_recommendations r₁).recommendations =
        (calculate_score_and_recommendations r₂).recommendations) := by
  refine ⟨fun _ => rfl, fun r₁ r₂ h => ?_⟩
  have h1 : calculate_module_score r₁ = calculate_module_score r₂ :=
    congrArg (fun q => q.1) h
  have h2 : calculate_build_score r₁ = calculate_build_score r₂ :=
    congrArg (fun q => q.2.1) h
  have h3 : calculate_test_score r₁ = calculate_test_score r₂ :=
    congrArg (fun q => q.2.2.1) h
  have h4 : calculate_performance_score r₁ = calculate_performance_score r₂ :=
    congrArg (fun q => q.2.2.2.1) h
  have h5 : calculate_integration_score r₁ = calculate_integration_score r₂ :=
    congrArg (fun q => q.2.2.2.2) h
  simp only [calculate_score_and_recommendations, h1, h2, h3, h4, h5]

/-- C7 witness: applying the determinism clause at a concrete pair. -/
theorem c7_recommendations_deterministic_witness :
    category_scores (initial_result "a") = category_scores (initial_result "b") ∧
    (calculate_score_and_recommendations (initial_result "a")).recommendations =
      (calculate_score_and_recommendations (initial_result "b")).recommendations :=
  ⟨rfl, c7_recommendations_deterministic.2 (initial_result "a")
    (initial_result "b") rfl⟩

/-- C8: the coverage phase rewrites each module's coverage to 60 when it has
tests and 0 otherwise (so in particular for every module with exists = true),
and changes no other module field and no other result field. -/
theorem c8_coverage_phase (r : AssessmentResult) (s : ModuleStatus) :
    (check_test_coverage r).framework_modules =
      r.framework_modules.map (fun p => (p.1, coverage_update p.2)) ∧
    (check_test_coverage r).business_modules =
      r.business_modules.map (fun p => (p.1, coverage_update p.2)) ∧
    (check_test_coverage r).support_modules =
      r.support_modules.map (fun p => (p.1, coverage_update p.2)) ∧
    (check_test_coverage r).performance_metrics = r.performance_metrics ∧
    (check_test_coverage r).integration_tests = r.integration_tests ∧
    (check_test_coverage r).overall_score = r.overall_score ∧
    (check_test_coverage r).recommendations = r.recommendations ∧
    (check_test_coverage r).timestamp = r.timestamp ∧
    (coverage_update s).test_coverage = (if s.has_tests then 60 else 0) ∧
    (coverage_update s).name = s.name ∧
    (coverage_update s).path = s.path ∧
    (coverage_update s).«exists» = s.«exists» ∧
    (coverage_update s).has_pom = s.has_pom ∧
    (coverage_update s).compilable = s.compilable ∧
    (coverage_update s).has_tests = s.has_tests ∧
    (coverage_update s).issues = s.issues :=
  ⟨rfl, rfl, rfl, rfl, rfl, rfl, rfl, rfl, rfl, rfl, rfl, rfl, rfl, rfl, rfl,
   rfl⟩

/-- C6: each category-score computation is total, and each returns 0 at a
zero denominator: build health when no module has exists ∧ has_pom, test
coverage when no module exists, and the benchmark/scenario scores when their
lists are empty. -/
theorem c6_zero_denominator_scores (r : AssessmentResult) :
    ((all_statuses r).filter (fun s => s.«exists» && s.has_pom) = [] →
      calculate_build_score r = 0) ∧
    ((all_statuses r).filter (fun s => s.«exists») = [] →
      calculate_test_score r = 0) ∧
    (r.performance_metrics = [] → calculate_performance_score r = 0) ∧
    (r.integration_tests = [] → calculate_integration_score r = 0) := by
  refine ⟨fun h => ?_, fun h => ?_, fun h => ?_, fun h => ?_⟩
  · simp [calculate_build_score, h]
  · simp [calculate_test_score, h]
  · simp [calculate_performance_score, h]
  · simp [calculate_integration_score, h]

/-- C6 witness: the fresh result has every denominator equal to zero and all
four scores equal to 0. -/
theorem c6_zero_denominator_scores_witness :
    (all_statuses (initial_result "t")).filter
        (fun s => s.«exists» && s.has_pom) = [] ∧
    (all_statuses (initial_result "t")).filter (fun s => s.«exists») = [] ∧
    (initial_result "t").performance_metrics = [] ∧
    (initial_result "t").integration_tests = [] ∧
    calculate_build_score (initial_result "t") = 0 ∧
    calculate_test_score (initial_result "t") = 0 ∧
    calculate_performance_score (initial_result "t") = 0 ∧
    calculate_integration_score (initial_result "t") = 0 :=
  ⟨rfl, rfl, rfl, rfl,
   (c6_zero_denominator_scores (initial_result "t")).1 rfl,
   (c6_zero_denominator_scores (initial_result "t")).2.1 rfl,
   (c6_zero_denominator_scores (initial_result "t")).2.2.1 rfl,
   (c6_zero_denominator_scores (initial_result "t")).2.2.2 rfl⟩

/-- C5: the build verifier is asymmetric. On a non-zero build exit code every
module with exists ∧ has_pom gets compilable = false and an appended
"编译失败" issue (other modules untouched); on timeout or unexpected error the
whole result — and in particular every module's compilable field — is left
exactly as it was, with no per-module issue appended. -/
theorem c5_failure_timeout_asymmetry (s : ModuleStatus) (r : AssessmentResult) :
    ((s.«exists» && s.has_pom) = true →
      compile_update false s =
        { s with compilable := false, issues := s.issues ++ ["编译失败"] }) ∧
    ((s.«exists» && s.has_pom) = false →
      compile_update false s = s ∧ compile_update true s = s) ∧
    check_compilation .failure r = map_modules (compile_update false) r ∧
    check_compilation .timeout_or_error r = r := by
  refine ⟨fun h => ?_, fun h => ?_, rfl, rfl⟩
  · simp [compile_update, h]
  · constructor <;> simp [compile_update, h]

/-- C5 witness: the per-status clauses applied to one eligible and one
ineligible concrete status. -/
theorem c5_failure_timeout_asymmetry_witness :
    ((mk_status true true true false 0).«exists» &&
        (mk_status true true true false 0).has_pom) = true ∧
    compile_update false (mk_status true true true false 0) =
      { mk_status true true true false 0 with
        compilable := false,
        issues := (mk_status true true true false 0).issues ++ ["编译失败"] } ∧
    ((mk_status false false false false 0).«exists» &&
        (mk_status false false false false 0).has_pom) = false ∧
    compile_update false (mk_status false false false false 0) =
      mk_status false false false false 0 :=
  ⟨by decide,
   (c5_failure_timeout_asymmetry (mk_status true true true false 0)
      (initial_result "t")).1 (by decide),
   by decide,
   ((c5_failure_timeout_asymmetry (mk_status false false false false 0)
      (initial_result "t")).2.1 (by decide)).1⟩

/-!
Invariant machinery shared by the pipeline-wide theorems: transporting a
per-status boolean check across the phases.
-/

/-- `all_statuses` of `map_modules` is the pointwise image. -/
theorem all_statuses_map_modules (f : ModuleStatus → ModuleStatus)
    (r : AssessmentResult) :
    all_statuses (map_modules f r) = (all_statuses r).map f := by
  simp [all_statuses, map_modules, List.map_map, Function.comp_def]

/-- A per-status check survives `map_modules` under a preservation step. -/
theorem all_map_modules_of_all (p : ModuleStatus → Bool)
    (f : ModuleStatus → ModuleStatus)
    (hf : ∀ s, p s = true → p (f s) = true) (r : AssessmentResult)
    (h : (all_statuses r).all p = true) :
    (all_statuses (map_modules f r)).all p = true := by
  rw [all_statuses_map_modules, List.all_map]
  rw [List.all_eq_true] at h ⊢
  exact fun s hs => hf s (h s hs)

/-- A per-status check holding on every probed and synthetic status holds on
every status after the module-completeness phase. -/
theorem all_check_module_completeness (fs : FileSystem) (r : AssessmentResult)
    (p : ModuleStatus → Bool)
    (hana : ∀ n path, p (analyze_module fs n path) = true)
    (htf : p (tf_status fs) = true) (hac : p (ac_status fs) = true) :
    (all_statuses (check_module_completeness fs r)).all p = true := by
  simp [all_statuses, check_module_completeness, check_framework_modules,
    check_business_modules, check_support_modules, List.all_map,
    Function.comp_def, hana, htf, hac]

/-- The benchmark, scenario and aggregation phases do not touch module
statuses. -/
theorem all_statuses_late_phases (r : AssessmentResult) :
    all_statuses (run_performance_tests r) = all_statuses r ∧
    all_statuses (run_integration_tests r) = all_statuses r ∧
    all_statuses (calculate_score_and_recommendations r) = all_statuses r :=
  ⟨rfl, rfl, rfl⟩

/-- The probe never sets `compilable`. -/
theorem analyze_module_compilable (fs : FileSystem) (n : String)
    (path : List String) : (analyze_module fs n path).compilable = false := by
  unfold analyze_module
  by_cases h : (fs.path_exists path && fs.is_dir path) = true <;> simp [h]

/-- Per-status form of the C2 invariant: `compilable → exists ∧ has_pom`. -/
def status_inv (s : ModuleStatus) : Bool :=
  !s.compilable || (s.«exists» && s.has_pom)

/-- `compile_update` preserves the C2 invariant. -/
theorem status_inv_compile_update (b : Bool) (s : ModuleStatus)
    (h : status_inv s = true) : status_inv (compile_update b s) = true := by
  unfold compile_update
  by_cases he : (s.«exists» && s.has_pom) = true
  · cases b <;> simp [he, status_inv]
  · simpa [he] using h

/-- `coverage_update` preserves the C2 invariant. -/
theorem status_inv_coverage_update (s : ModuleStatus)
    (h : status_inv s = true) : status_inv (coverage_update s) = true := by
  simpa [coverage_update, status_inv] using h

/-- Every status of the module-completeness phase satisfies the C2
invariant. -/
theorem status_inv_phase1 (fs : FileSystem) (r : AssessmentResult) :
    (all_statuses (check_module_completeness fs r)).all status_inv = true := by
  refine all_check_module_completeness fs r status_inv (fun n path => ?_) rfl rfl
  simp [status_inv, analyze_module_compilable]

/-- C2: at every point of the pipeline — after probing, after build
verification, after coverage estimation, and at pipeline end — every module
status satisfies `compilable = true → exists = true ∧ has_pom = true`,
whatever the build outcome. -/
theorem c2_buildable_invariant (fs : FileSystem) (outcome : BuildOutcome)
    (ts : String) :
    (all_statuses (check_module_completeness fs (initial_result ts))).all
        status_inv = true ∧
    (all_statuses (check_compilation outcome
        (check_module_completeness fs (initial_result ts)))).all
        status_inv = true ∧
    (all_statuses (check_test_coverage (check_compilation outcome
        (check_module_completeness fs (initial_result ts))))).all
        status_inv = true ∧
    (all_statuses (run_assessment fs outcome ts)).all status_inv = true := by
  have h1 := status_inv_phase1 fs (initial_result ts)
  have h2 : (all_statuses (check_compilation outcome
      (check_module_completeness fs (initial_result ts)))).all
      status_inv = true := by
    cases outcome with
    | success =>
      exact all_map_modules_of_all _ _ (status_inv_compile_update true) _ h1
    | failure =>
      exact all_map_modules_of_all _ _ (status_inv_compile_update false) _ h1
    | timeout_or_error => exact h1
  have h3 := all_map_modules_of_all _ _ status_inv_coverage_update _ h2
  exact ⟨h1, h2, h3, h3⟩

/-- Per-status form of the amended C3 property for statuses produced by
`_analyze_module`: a missing directory yields exactly the single missing-dir
issue; otherwise each failing check among has_pom / has_tests contributes its
issue string, and any failing check makes `issues` non-empty. -/
def probe_issue_check (s : ModuleStatus) : Bool :=
  if s.«exists» then
    (s.has_pom || s.issues.contains "缺少pom.xml文件") &&
    (s.has_tests || s.issues.contains "缺少测试代码") &&
    ((s.has_pom && s.has_tests) || !s.issues.isEmpty)
  else s.issues == ["模块目录不存在"]

/-- Per-status form of the amended C3 property for the synthetic
test-framework / admin-console statuses: an issue is recorded exactly when
the heuristic existence check fails, regardless of has_pom / has_tests. -/
def synthetic_issue_check (s : ModuleStatus) : Bool :=
  if s.«exists» then s.issues.isEmpty else s.issues.length == 1

/-- `_analyze_module` satisfies the per-status amended C3 property. -/
theorem probe_issue_check_analyze (fs : FileSystem) (n : String)
    (p : List String) : probe_issue_check (analyze_module fs n p) = true := by
  unfold analyze_module
  cases hex : fs.path_exists p && fs.is_dir p
  · simp [hex, probe_issue_check]
  · cases hp : fs.path_exists (p ++ ["pom.xml"]) <;>
    cases hm : fs.path_exists (p ++ ["src", "main", "java"]) <;>
    cases ht : fs.path_exists (p ++ ["src", "test", "java"]) <;>
    simp [hex, hp, hm, ht, probe_issue_check]

/-- C3 counterexample: on a filesystem where nothing exists but the walk
visits a directory whose path contains "testing", the module-completeness
phase produces the test-framework status with exists = true,
has_pom = false, has_tests = false and an EMPTY issues list — so a status
with a failing check and no issue entry, contradicting the claim. -/
theorem c3_counterexample :
    (List.lookup "test-framework"
        (check_module_completeness fs_testing_only
          (initial_result "t")).support_modules).map
      (fun s => (s.«exists», s.has_pom, s.has_tests, s.issues)) =
    some (true, false, false, []) := by decide

/-- C3 amended: for every module status produced by `_analyze_module`
(framework group, business group, and the launcher / common support
entries), any failing check among exists / has_pom / has_tests contributes
its issue string and makes `issues` non-empty; the synthetic test-framework
and admin-console statuses instead record exactly one issue when their
heuristic existence check fails and none otherwise (even though their
has_pom and has_tests are false). -/
theorem c3_probe_issues_amended (fs : FileSystem) (ts : String) :
    ((((check_module_completeness fs (initial_result ts)).framework_modules ++
       (check_module_completeness fs (initial_result ts)).business_modules).map
        Prod.snd ++
      (((check_module_completeness fs
          (initial_result ts)).support_modules).map Prod.snd).take 2).all
      probe_issue_check = true) ∧
    ((((check_module_completeness fs
        (initial_result ts)).support_modules).map Prod.snd).drop 2).all
      synthetic_issue_check = true := by
  constructor
  · simp [check_module_completeness, check_framework_modules,
      check_business_modules, check_support_modules, List.all_map,
      Function.comp_def, probe_issue_check_analyze]
  · simp only [check_module_completeness, check_support_modules]
    simp only [List.map_cons, List.map_nil, List.drop_succ_cons,
      List.drop_nil, List.all_cons, List.all_nil, List.drop]
    rw [Bool.and_eq_true, Bool.and_eq_true]
    refine ⟨?_, ?_, rfl⟩
    · unfold synthetic_issue_check tf_status
      cases h : test_framework_found fs <;> simp [h]
    · unfold synthetic_issue_check ac_status
      cases h : admin_console_found fs <;> simp [h]

/-- The status returned by `_analyze_module` for a missing directory. -/
def missing_status (name : String) (path : List String) : ModuleStatus :=
  { name := name, path := path_string path, «exists» := false,
    issues := ["模块目录不存在"] }

/-- Per-status form of C4's pipeline clause: a non-existing module keeps
has_pom, compilable and has_tests false, coverage 0, and exactly one issue. -/
def missing_check (s : ModuleStatus) : Bool :=
  s.«exists» ||
    (!s.has_pom && !s.compilable && !s.has_tests &&
      decide (s.test_coverage = 0) && s.issues.length == 1)

/-- Every probed status satisfies `missing_check`. -/
theorem missing_check_analyze (fs : FileSystem) (n : String)
    (p : List String) : missing_check (analyze_module fs n p) = true := by
  unfold analyze_module
  cases hex : fs.path_exists p && fs.is_dir p <;> simp [hex, missing_check]

/-- The synthetic support statuses satisfy `missing_check`. -/
theorem missing_check_synthetic (fs : FileSystem) :
    missing_check (tf_status fs) = true ∧ missing_check (ac_status fs) = true := by
  constructor
  · unfold missing_check tf_status
    cases h : test_framework_found fs <;> simp [h]
  · unfold missing_check ac_status
    cases h : admin_console_found fs <;> simp [h]

/-- `compile_update` preserves `missing_check`. -/
theorem missing_check_compile_update (b : Bool) (s : ModuleStatus)
    (h : missing_check s = true) :
    missing_check (compile_update b s) = true := by
  unfold compile_update
  cases hex : s.«exists» with
  | false => simpa [hex] using h
  | true =>
    cases hpom : s.has_pom with
    | false => simpa [hex, hpom] using h
    | true => cases b <;> simp [hex, hpom, missing_check]

/-- `coverage_update` preserves `missing_check`. -/
theorem missing_check_coverage_update (s : ModuleStatus)
    (h : missing_check s = true) :
    missing_check (coverage_update s) = true := by
  unfold coverage_update
  cases hex : s.«exists» with
  | true => simp [missing_check, hex]
  | false =>
    unfold missing_check at h ⊢
    simp only [hex] at h ⊢
    simp at h ⊢
    obtain ⟨⟨⟨⟨h1, h2⟩, h3⟩, h4⟩, h5⟩ := h
    simp [h1, h2, h3, h4, h5]

/-- C4: a module whose resolved location does not exist or is not a
directory gets the status with exists = false and exactly the single
missing-directory issue; the later per-status updates leave that status
unchanged, and at pipeline end every non-existing module still has
has_pom = compilable = has_tests = false, coverage 0, and exactly one
issue. -/
theorem c4_missing_module (fs : FileSystem) (outcome : BuildOutcome)
    (name : String) (path : List String) (ts : String)
    (h : (fs.path_exists path && fs.is_dir path) = false) :
    analyze_module fs name path = missing_status name path ∧
    (∀ b : Bool, compile_update b (missing_status name path) =
      missing_status name path) ∧
    coverage_update (missing_status name path) = missing_status name path ∧
    (all_statuses (run_assessment fs outcome ts)).all missing_check = true := by
  refine ⟨?_, fun _ => rfl, rfl, ?_⟩
  · unfold analyze_module
    simp [h, missing_status]
  · have h1 := all_check_module_completeness fs (initial_result ts)
      missing_check (missing_check_analyze fs)
      (missing_check_synthetic fs).1 (missing_check_synthetic fs).2
    have h2 : (all_statuses (check_compilation outcome
        (check_module_completeness fs (initial_result ts)))).all
        missing_check = true := by
      cases outcome with
      | success =>
        exact all_map_modules_of_all _ _ (missing_check_compile_update true) _ h1
      | failure =>
        exact all_map_modules_of_all _ _ (missing_check_compile_update false) _ h1
      | timeout_or_error => exact h1
    exact all_map_modules_of_all _ _ missing_check_coverage_update _ h2

/-- C4 witness: on the empty filesystem the framework module "network" is
missing; the probe returns the missing status, the updates fix it, and the
pipeline-end check holds. -/
theorem c4_missing_module_witness :
    (fs_empty.path_exists (framework_module_path "network") &&
      fs_empty.is_dir (framework_module_path "network")) = false ∧
    (analyze_module fs_empty "network" (framework_module_path "network") =
        missing_status "network" (framework_module_path "network") ∧
      (∀ b : Bool, compile_update b
          (missing_status "network" (framework_module_path "network")) =
        missing_status "network" (framework_module_path "network")) ∧
      coverage_update
          (missing_status "network" (framework_module_path "network")) =
        missing_status "network" (framework_module_path "network") ∧
      (all_statuses (run_assessment fs_empty .success "t")).all
        missing_check = true) :=
  ⟨by decide,
   c4_missing_module fs_empty .success "network"
     (framework_module_path "network") "t" (by decide)⟩

/-- Reading back an encoded string list recovers it. -/
theorem read_strings_map (l : List String) :
    read_strings (l.map .jstr) = some l := by
  induction l with
  | nil => rfl
  | cons a t ih => simp [read_strings, ih]

/-- Reading back an encoded `ModuleStatus` recovers it. -/
theorem read_module_status_json (s : ModuleStatus) :
    read_module_status (module_status_json s) = some s := by
  cases s
  simp [module_status_json, read_module_status, read_strings_map]

/-- Reading back an encoded module dictionary recovers it. -/
theorem read_modules_list_json (l : List (String × ModuleStatus)) :
    read_modules_list (l.map (fun p => (p.1, module_status_json p.2))) =
      some l := by
  induction l with
  | nil => rfl
  | cons a t ih =>
    cases a
    simp [read_modules_list, read_module_status_json, ih]

/-- Reading back an encoded benchmark entry recovers it. -/
theorem read_metric_json (m : PerformanceMetrics) :
    read_metric (metric_json m) = some m := by
  cases m
  rfl

/-- Reading back an encoded benchmark list recovers it. -/
theorem read_metrics_json (l : List PerformanceMetrics) :
    read_metrics (l.map metric_json) = some l := by
  induction l with
  | nil => rfl
  | cons a t ih => simp [read_metrics, read_metric_json, ih]

/-- Reading back an encoded scenario map recovers it. -/
theorem read_scenarios_json (l : List (String × Bool)) :
    read_scenarios (l.map (fun p => (p.1, .jbool p.2))) = some l := by
  induction l with
  | nil => rfl
  | cons a t ih =>
    cases a
    simp [read_scenarios, ih]

/-- C9: the structured (JSON) report form of `generate_report` is lossless —
reading it back yields the original `AssessmentResult` field for field
(all module statuses of the three groups, all benchmark fields, all scenario
outcomes, the overall score, the recommendations in order, and the
timestamp). -/
theorem c9_report_roundtrip (r : AssessmentResult) :
    read_result (report_data r) = some r := by
  cases r
  simp [report_data, read_result, read_summary, read_analysis, modules_json,
    read_strings_map, read_modules_list_json, read_metrics_json,
    read_scenarios_json]

/-- `compile_update` never changes `has_pom`. -/
theorem compile_update_has_pom (b : Bool) (s : ModuleStatus) :
    (compile_update b s).has_pom = s.has_pom := by
  unfold compile_update
  by_cases h : (s.«exists» && s.has_pom) = true <;> cases b <;> simp [h]

/-- `coverage_update` never changes `has_pom`. -/
theorem coverage_update_has_pom (s : ModuleStatus) :
    (coverage_update s).has_pom = s.has_pom := rfl

/-- A filter keeps at most two elements of a list whose elements beyond the
first two all fail the predicate. -/
theorem filter_length_le_two {α : Type} (p : α → Bool) (S : List α)
    (h : ∀ s ∈ S.drop 2, p s = false) : (S.filter p).length ≤ 2 := by
  conv_lhs => rw [← List.take_append_drop 2 S]
  rw [List.filter_append, List.length_append]
  have h1 : ((S.take 2).filter p).length ≤ 2 :=
    le_trans (List.length_filter_le _ _) (by simp)
  have h2 : (S.drop 2).filter p = [] :=
    List.filter_eq_nil_iff.mpr (fun a ha => by simp [h a ha])
  rw [h2]
  simpa using h1
/-- The module-completeness score is bounded by 22/24 of 100 whenever the
result holds 24 statuses of which the last two support entries lack a
manifest. -/
theorem module_score_le (r : AssessmentResult)
    (h24 : (all_statuses r).length = 24)
    (hsup4 : r.support_modules.length = 4)
    (hdrop : ∀ s ∈ (r.support_modules.map Prod.snd).drop 2,
      (s.«exists» && s.has_pom) = false) :
    calculate_module_score r ≤ 22 / 24 * 100 := by
  have hsplit : all_statuses r =
      (r.framework_modules ++ r.business_modules).map Prod.snd ++
        r.support_modules.map Prod.snd := by
    simp [all_statuses]
  have hXlen : ((r.framework_modules ++ r.business_modules).map
      Prod.snd).length = 20 := by
    rw [hsplit] at h24
    simp only [List.length_append, List.length_map] at h24 ⊢
    omega
  have hw : ((all_statuses r).filter
      (fun s => s.«exists» && s.has_pom)).length ≤ 22 := by
    rw [hsplit, List.filter_append, List.length_append]
    have h1 := List.length_filter_le (fun s => s.«exists» && s.has_pom)
      ((r.framework_modules ++ r.business_modules).map Prod.snd)
    have h2 := filter_length_le_two (fun s => s.«exists» && s.has_pom)
      (r.support_modules.map Prod.snd) hdrop
    omega
  unfold calculate_module_score
  rw [h24]
  rw [if_pos (by norm_num)]
  have hq : (((all_statuses r).filter
      (fun s => s.«exists» && s.has_pom)).length : ℚ) ≤ 22 := by
    exact_mod_cast hw
  gcongr

/-- The final result keeps the probe-time group keys: the 12 expected
framework names, the 8 expected business names, and the four support entries
actually inserted by `_check_support_modules`. -/
theorem run_assessment_keys (fs : FileSystem) (outcome : BuildOutcome)
    (ts : String) :
    (run_assessment fs outcome ts).framework_modules.map Prod.fst =
      expected_framework_modules ∧
    (run_assessment fs outcome ts).business_modules.map Prod.fst =
      expected_business_modules ∧
    (run_assessment fs outcome ts).support_modules.map Prod.fst =
      ["launcher", "common", "test-framework", "admin-console"] := by
  cases outcome <;>
    refine ⟨?_, ?_, ?_⟩ <;>
      simp [run_assessment, calculate_score_and_recommendations,
        run_integration_tests, run_performance_tests, check_test_coverage,
        check_compilation, map_modules, check_module_completeness,
        check_framework_modules, check_business_modules,
        check_support_modules, List.map_map, Function.comp_def]

/-- Beyond the first two entries, the final support statuses never have a
manifest. -/
theorem run_assessment_support_drop (fs : FileSystem) (outcome : BuildOutcome)
    (ts : String) :
    ∀ s ∈ ((run_assessment fs outcome ts).support_modules.map Prod.snd).drop 2,
      s.has_pom = false := by
  cases outcome <;>
    simp [run_assessment, calculate_score_and_recommendations,
      run_integration_tests, run_performance_tests, check_test_coverage,
      check_compilation, map_modules, check_module_completeness,
      check_support_modules, List.map_map, Function.comp_def,
      compile_update_has_pom, coverage_update_has_pom, tf_status, ac_status]

/-- C10: for every filesystem and build outcome the result holds exactly 12
framework, 8 business and 4 support statuses (support keys launcher, common,
test-framework, admin-console — not the 3-element expected support list), so
the module-completeness denominator is 24; "common" appears in both the
framework and support groups; the test-framework and admin-console statuses
never have a manifest; and the module-completeness score is bounded by
22/24 × 100. -/
theorem c10_fixed_groups (fs : FileSystem) (outcome : BuildOutcome)
    (ts : String) :
    (run_assessment fs outcome ts).framework_modules.length = 12 ∧
    (run_assessment fs outcome ts).business_modules.length = 8 ∧
    (run_assessment fs outcome ts).support_modules.length = 4 ∧
    (all_statuses (run_assessment fs outcome ts)).length = 24 ∧
    (run_assessment fs outcome ts).support_modules.map Prod.fst =
      ["launcher", "common", "test-framework", "admin-console"] ∧
    (run_assessment fs outcome ts).support_modules.map Prod.fst ≠
      expected_support_modules ∧
    "common" ∈ (run_assessment fs outcome ts).framework_modules.map Prod.fst ∧
    "common" ∈ (run_assessment fs outcome ts).support_modules.map Prod.fst ∧
    (∀ s ∈ ((run_assessment fs outcome ts).support_modules.map
        Prod.snd).drop 2, s.has_pom = false) ∧
    calculate_module_score (run_assessment fs outcome ts) ≤ 22 / 24 * 100 := by
  obtain ⟨hf, hb, hs⟩ := run_assessment_keys fs outcome ts
  have hdrop := run_assessment_support_drop fs outcome ts
  have lf : (run_assessment fs outcome ts).framework_modules.length = 12 := by
    have := congrArg List.length hf
    simpa using this
  have lb : (run_assessment fs outcome ts).business_modules.length = 8 := by
    have := congrArg List.length hb
    simpa using this
  have ls : (run_assessment fs outcome ts).support_modules.length = 4 := by
    have := congrArg List.length hs
    simpa using this
  have h24 : (all_statuses (run_assessment fs outcome ts)).length = 24 := by
    simp [all_statuses, lf, lb, ls]
  refine ⟨lf, lb, ls, h24, hs, ?_, ?_, ?_, hdrop, ?_⟩
  · rw [hs]
    decide
  · rw [hf]
    decide
  · rw [hs]
    decide
  · refine module_score_le _ h24 ls (fun s hmem => ?_)
    rw [hdrop s hmem]
    simp
